import Mathlib

/-!
Verification of the contact-book core (`src/models.py`).

Strings are embedded as `List Char`.  Python exceptions become values of
`Err` carried in `Except`; a method that may both raise and mutate `self`
is embedded as a function returning the result together with the state of
the object at the moment the call finishes (normally or by raising) —
in the source every `raise` happens before any mutation, so the state
returned on an error branch is the input state.
-/

deriving instance DecidableEq for Except

namespace Models

/-- Exceptions of `models.py`: `PhoneFormatError` and `ContactError`,
each carrying its message. -/
inductive Err where
  | phoneFormat (msg : String)
  | contact (msg : String)
deriving DecidableEq, Repr

/-- Embeds the character class of `Phone.pattern = r"[+\d]"`: a character
is kept by the cleaning pass iff it is `+` or a digit. -/
def isKept (c : Char) : Bool := c == '+' || c.isDigit

/-- Embeds `"".join(re.findall(self.pattern, raw_phone))` in
`Phone.__init__`: keep exactly the characters matching `[+\d]`, in order. -/
def clean (raw : List Char) : List Char := raw.filter isKept

/-- Embeds the country-code step of `Phone.__init__`: when the cleaned
string does not start with `+`, the substitution
`re.sub(r"^(38)?", "+38", phone)` replaces a leading `"38"` (or the empty
match at the start) by `"+38"`. -/
def addCountryCode (p : List Char) : List Char :=
  if p.head? = some '+' then p
  else '+' :: '3' :: '8' :: (if p.take 2 = ['3', '8'] then p.drop 2 else p)

/-- The full normalization performed by `Phone.__init__` before the
length check. -/
def normalizeRaw (raw : List Char) : List Char := addCountryCode (clean raw)

/-- Embeds `Phone.__init__`: normalize, then require length exactly 13,
otherwise raise `PhoneFormatError("Invalid phone number.")`.  The value of
a successfully constructed `Phone` is its normalized string (`Field.value`);
`Phone` equality is equality of these values. -/
def mkPhone (raw : List Char) : Except Err (List Char) :=
  if (normalizeRaw raw).length = 13 then .ok (normalizeRaw raw)
  else .error (.phoneFormat "Invalid phone number.")

example : mkPhone "0501234567".toList = .ok "+380501234567".toList := by decide
example : mkPhone "+380501234567".toList = .ok "+380501234567".toList := by decide
example : mkPhone "380501234567".toList = .ok "+380501234567".toList := by decide
example : mkPhone "123".toList = .error (.phoneFormat "Invalid phone number.") := by decide
example : mkPhone "+38050123+567".toList = .ok "+38050123+567".toList := by decide

/-- The cleaning pass as claim C2 words it: all characters are removed
except digits and a leading `+`, so a digit survives anywhere while a `+`
survives only as the first character of the kept subsequence. -/
def cleanSpec (raw : List Char) : List Char :=
  match raw.filter isKept with
  | '+' :: rest => '+' :: rest.filter (fun c => c.isDigit)
  | l => l.filter (fun c => c.isDigit)

/-- Embeds `Record`: a `Name` (whose equality is equality of the wrapped
string, so the name is kept as a plain string) and the ordered list of the
values of its `Phone`s. -/
structure Record where
  name : String
  phones : List (List Char)
deriving DecidableEq, Repr

/-- Embeds `Record.find_phone`: build `Phone(phone)` (which may raise
`PhoneFormatError`), then return the first stored phone equal to it, or
`none`.  The method never mutates `self`, so the returned state is the
input record. -/
def Record.find_phone (r : Record) (phone : List Char) :
    Except Err (Option (List Char)) × Record :=
  (match mkPhone phone with
   | .error e => .error e
   | .ok target => .ok (r.phones.find? (· == target)), r)

/-- Embeds `Record.add_phone`: raise `ContactError` when `find_phone`
finds the number already present (propagating its `PhoneFormatError`
otherwise), else append `Phone(phone)`. -/
def Record.add_phone (r : Record) (phone : List Char) :
    Except Err Unit × Record :=
  match (r.find_phone phone).1 with
  | .error e => (.error e, r)
  | .ok (some _) => (.error (.contact "Phone number already exists."), r)
  | .ok none =>
    match mkPhone phone with
    | .error e => (.error e, r)
    | .ok p => (.ok (), { r with phones := r.phones ++ [p] })

/-- Embeds `Record.remove_phone`: look up via `find_phone` (propagating
its `PhoneFormatError`), remove the found phone with `list.remove`
(first occurrence), no error when absent. -/
def Record.remove_phone (r : Record) (phone : List Char) :
    Except Err Unit × Record :=
  match (r.find_phone phone).1 with
  | .error e => (.error e, r)
  | .ok none => (.ok (), r)
  | .ok (some existing) => (.ok (), { r with phones := r.phones.erase existing })

/-- Embeds `Record.edit_phone`: raise `ContactError("No such phone
number.")` when `old` is not found, then `ContactError("New phone number
already exists.")` when `find_phone(new_phone)` finds anything, else
overwrite the slot `self.phones.index(existing_phone)` with
`Phone(new_phone)`. -/
def Record.edit_phone (r : Record) (phone new_phone : List Char) :
    Except Err Unit × Record :=
  match (r.find_phone phone).1 with
  | .error e => (.error e, r)
  | .ok none => (.error (.contact "No such phone number."), r)
  | .ok (some existing) =>
    match (r.find_phone new_phone).1 with
    | .error e => (.error e, r)
    | .ok (some _) => (.error (.contact "New phone number already exists."), r)
    | .ok none =>
      match mkPhone new_phone with
      | .error e => (.error e, r)
      | .ok np =>
        (.ok (), { r with phones := r.phones.set (r.phones.indexOf existing) np })

/-- Embeds `Record.__str__`:
`f"Contact name: {self.name.value}, phones: {'; '.join(p.value for p in self.phones)}"`. -/
def Record.render (r : Record) : List Char :=
  "Contact name: ".toList ++ r.name.toList ++ ", phones: ".toList
    ++ List.intercalate "; ".toList r.phones

/-- Embeds `AddressBook`, a `UserDict` keyed by `Name`: an insertion-ordered
association list from name strings to records, with at most one entry per
key (which is how a `dict` behaves; `add_record` is the only inserter and
it refuses existing keys). -/
abbrev AddressBook := List (String × Record)

/-- Embeds `AddressBook.add_record`: raise `ContactError("Contact already
exists.")` when `record.name in self.data`, else `self.data[record.name] =
record`, which for a fresh key appends the entry at the end. -/
def AddressBook.add_record (b : AddressBook) (record : Record) :
    Except Err Unit × AddressBook :=
  if (b.find? (fun kv => kv.1 == record.name)).isSome then
    (.error (.contact "Contact already exists."), b)
  else
    (.ok (), b ++ [(record.name, record)])

/-- Embeds `AddressBook.find`: look the name up; when absent either raise
`ContactError("No such contact.")` or return `None` according to
`raise_error`.  The method never mutates `self`. -/
def AddressBook.find (b : AddressBook) (name : String) (raiseFlag : Bool) :
    Except Err (Option Record) × AddressBook :=
  (match b.find? (fun kv => kv.1 == name) with
   | none => if raiseFlag then .error (.contact "No such contact.") else .ok none
   | some kv => .ok (some kv.2), b)

/-- Embeds `AddressBook.delete`: `if name in self.data: del self.data[name]`;
on an association list with unique keys, deleting the key is dropping every
entry carrying it. -/
def AddressBook.delete (b : AddressBook) (name : String) : AddressBook :=
  b.filter (fun kv => kv.1 != name)

/-- Runs `Record.add_phone` sequentially on a list of raw strings,
returning the final record only when every single call succeeded. -/
def addAll (r : Record) (raws : List (List Char)) : Option Record :=
  match raws with
  | [] => some r
  | raw :: rest =>
    match r.add_phone raw with
    | (.ok (), r') => addAll r' rest
    | (.error _, _) => none

theorem find_beq_of_mem {α : Type} [BEq α] [LawfulBEq α] {l : List α} {a : α}
    (h : a ∈ l) : l.find? (fun x => x == a) = some a := by
  induction l with
  | nil => cases h
  | cons x xs ih =>
    by_cases hxa : x = a
    · subst hxa; simp
    · rw [List.find?_cons_of_neg]
      · exact ih ((List.mem_cons.mp h).resolve_left (fun h' => hxa h'.symm))
      · simpa using hxa

theorem find_beq_of_not_mem {α : Type} [BEq α] [LawfulBEq α] {l : List α} {a : α}
    (h : a ∉ l) : l.find? (fun x => x == a) = none := by
  apply List.find?_eq_none.mpr
  intro x hx hbeq
  exact h (eq_of_beq hbeq ▸ hx)

theorem mkPhone_ok_eq {raw t : List Char} (h : mkPhone raw = .ok t) :
    t = normalizeRaw raw ∧ (normalizeRaw raw).length = 13 := by
  unfold mkPhone at h
  split at h
  · injection h with h'
    exact ⟨h'.symm, by assumption⟩
  · cases h

theorem clean_kept {raw : List Char} {c : Char} (hc : c ∈ clean raw) : isKept c :=
  (List.mem_filter.mp hc).2

theorem normalize_kept {raw : List Char} {c : Char} (hc : c ∈ normalizeRaw raw) :
    isKept c := by
  unfold normalizeRaw addCountryCode at hc
  split at hc
  · exact clean_kept hc
  · simp only [List.mem_cons] at hc
    rcases hc with rfl | rfl | rfl | hc
    · decide
    · decide
    · decide
    · split at hc
      · exact clean_kept (List.mem_of_mem_drop hc)
      · exact clean_kept hc

theorem normalize_head (raw : List Char) : (normalizeRaw raw).head? = some '+' := by
  unfold normalizeRaw addCountryCode
  split
  · assumption
  · rfl

theorem normalize_idem (raw : List Char) :
    normalizeRaw (normalizeRaw raw) = normalizeRaw raw := by
  have hclean : clean (normalizeRaw raw) = normalizeRaw raw :=
    List.filter_eq_self.mpr (fun c hc => normalize_kept hc)
  show addCountryCode (clean (normalizeRaw raw)) = normalizeRaw raw
  rw [hclean]
  unfold addCountryCode
  rw [if_pos (normalize_head raw)]

/-- Claim C3: constructing a `Phone` from `"0501234567"` succeeds with
normalized value `"+380501234567"` (13 characters), and construction from
any raw string whose normalized form has length other than 13 fails with
`PhoneFormatError`. -/
theorem C3_phone_construction :
    (mkPhone "0501234567".toList = .ok "+380501234567".toList ∧
      ("+380501234567".toList).length = 13) ∧
    ∀ raw : List Char, (normalizeRaw raw).length ≠ 13 →
      mkPhone raw = .error (.phoneFormat "Invalid phone number.") := by
  refine ⟨⟨by decide, by decide⟩, ?_⟩
  intro raw h
  unfold mkPhone
  rw [if_neg h]

/-- Witness for C3 at the concrete inputs `"0501234567"` and `"123"`. -/
theorem C3_phone_construction_witness :
    mkPhone "0501234567".toList = .ok "+380501234567".toList ∧
    mkPhone "123".toList = .error (.phoneFormat "Invalid phone number.") :=
  ⟨C3_phone_construction.1.1, C3_phone_construction.2 "123".toList (by decide)⟩

/-- Claim C4: normalization is idempotent — whenever `Phone` construction
succeeds with value `p`, constructing a `Phone` from `p` succeeds and
yields `p` again. -/
theorem C4_normalize_idempotent (raw p : List Char) (h : mkPhone raw = .ok p) :
    mkPhone p = .ok p := by
  obtain ⟨rfl, hl⟩ := mkPhone_ok_eq h
  unfold mkPhone
  rw [normalize_idem raw, if_pos hl]

/-- Witness for C4 at the concrete input `"0501234567"`. -/
theorem C4_normalize_idempotent_witness :
    mkPhone "+380501234567".toList = .ok "+380501234567".toList :=
  C4_normalize_idempotent "0501234567".toList "+380501234567".toList (by decide)

/-- Claim C2 is false at a concrete input: the cleaning pass of
`Phone.__init__` keeps every `+` (its regex class is `[+\d]`), not only a
leading one.  On `"+38050123+567"` the interior `+` survives cleaning —
the claim's cleaning rule would drop it — and the resulting 13-character
string is even accepted as a valid `Phone` value. -/
theorem C2_counterexample :
    clean "+38050123+567".toList ≠ cleanSpec "+38050123+567".toList ∧
    clean "+38050123+567".toList = "+38050123+567".toList ∧
    mkPhone "+38050123+567".toList = .ok "+38050123+567".toList := by
  refine ⟨by decide, by decide, by decide⟩

/-- Claim C2 as amended: the cleaning pass keeps, in order, exactly the
characters that are digits or `+` — every `+` survives, wherever it occurs
— and then, if the cleaned result does not start with `+`, a leading
occurrence of "38" (if present) is stripped and "+38" is prepended. -/
theorem C2_cleaning_amended (raw : List Char) :
    ((clean raw).Sublist raw ∧
      ∀ c : Char, (clean raw).count c = if isKept c then raw.count c else 0) ∧
    ((clean raw).head? = some '+' → normalizeRaw raw = clean raw) ∧
    ((clean raw).head? ≠ some '+' →
      normalizeRaw raw = '+' :: '3' :: '8' ::
        (if (clean raw).take 2 = ['3', '8'] then (clean raw).drop 2 else clean raw)) := by
  refine ⟨⟨List.filter_sublist raw, ?_⟩, ?_, ?_⟩
  · intro c
    by_cases hk : isKept c
    · rw [if_pos hk]
      exact List.count_filter hk
    · rw [if_neg hk, List.count_eq_zero]
      intro hc
      exact hk (clean_kept hc)
  · intro h
    unfold normalizeRaw addCountryCode
    rw [if_pos h]
  · intro h
    unfold normalizeRaw addCountryCode
    rw [if_neg h]

/-- Witness for the amended C2 on both sides of the leading-`+` split. -/
theorem C2_cleaning_amended_witness :
    normalizeRaw "+380501234567".toList = clean "+380501234567".toList ∧
    normalizeRaw "0501234567".toList = '+' :: '3' :: '8' ::
      (if (clean "0501234567".toList).take 2 = ['3', '8']
       then (clean "0501234567".toList).drop 2 else clean "0501234567".toList) :=
  ⟨(C2_cleaning_amended "+380501234567".toList).2.1 (by decide),
   (C2_cleaning_amended "0501234567".toList).2.2 (by decide)⟩

theorem find_phone_some (r : Record) {raw t : List Char}
    (h : mkPhone raw = .ok t) (hm : t ∈ r.phones) :
    (r.find_phone raw).1 = .ok (some t) := by
  simp [Record.find_phone, h, find_beq_of_mem hm]

theorem find_phone_none (r : Record) {raw t : List Char}
    (h : mkPhone raw = .ok t) (hm : t ∉ r.phones) :
    (r.find_phone raw).1 = .ok none := by
  simp [Record.find_phone, h, find_beq_of_not_mem hm]

theorem find_phone_failed (r : Record) {raw : List Char} {e : Err}
    (h : mkPhone raw = .error e) :
    (r.find_phone raw).1 = .error e := by
  simp [Record.find_phone, h]

/-- Claim C5: a second `add_phone` of a raw string normalizing to an
already-stored phone fails with the duplicate `ContactError` and leaves
the phone list exactly as it was, and an `add_phone` that fails because
the raw string does not normalize propagates the error and likewise
leaves the phone list unchanged. -/
theorem C5_add_phone_failure_frame (r : Record) (raw : List Char) :
    (∀ p, mkPhone raw = .ok p → p ∈ r.phones →
      r.add_phone raw = (.error (.contact "Phone number already exists."), r)) ∧
    (∀ e, mkPhone raw = .error e → r.add_phone raw = (.error e, r)) := by
  constructor
  · intro p hp hm
    unfold Record.add_phone
    rw [find_phone_some r hp hm]
  · intro e he
    unfold Record.add_phone
    rw [find_phone_failed r he]

/-- Witness for C5: a duplicate add and a malformed add on a concrete
one-phone record. -/
theorem C5_add_phone_failure_frame_witness :
    Record.add_phone ⟨"Alice", ["+380501234567".toList]⟩ "0501234567".toList
      = (.error (.contact "Phone number already exists."),
         ⟨"Alice", ["+380501234567".toList]⟩) ∧
    Record.add_phone ⟨"Alice", ["+380501234567".toList]⟩ "123".toList
      = (.error (.phoneFormat "Invalid phone number."),
         ⟨"Alice", ["+380501234567".toList]⟩) :=
  ⟨(C5_add_phone_failure_frame ⟨"Alice", ["+380501234567".toList]⟩
      "0501234567".toList).1 "+380501234567".toList (by decide) (by decide),
   (C5_add_phone_failure_frame ⟨"Alice", ["+380501234567".toList]⟩
      "123".toList).2 (.phoneFormat "Invalid phone number.") (by decide)⟩

/-- Claim C6: `edit_phone` whose old number normalizes but matches no
stored phone fails with `ContactError("No such phone number.")` and
leaves the phone list unchanged. -/
theorem C6_edit_phone_not_found (r : Record) (old new p : List Char)
    (h1 : mkPhone old = .ok p) (h2 : p ∉ r.phones) :
    r.edit_phone old new = (.error (.contact "No such phone number."), r) := by
  unfold Record.edit_phone
  rw [find_phone_none r h1 h2]

/-- Witness for C6 on a concrete empty record. -/
theorem C6_edit_phone_not_found_witness :
    Record.edit_phone ⟨"Alice", []⟩ "0501234567".toList "0509999999".toList
      = (.error (.contact "No such phone number."), ⟨"Alice", []⟩) :=
  C6_edit_phone_not_found ⟨"Alice", []⟩ "0501234567".toList "0509999999".toList
    "+380501234567".toList (by decide) (by decide)

/-- Claim C7: `remove_phone` of a well-formed raw string matching no
stored phone is a no-op without error, and `remove_phone` of a raw string
that does not normalize propagates the `PhoneFormatError`; in both cases
the phone list is unchanged. -/
theorem C7_remove_phone_frame (r : Record) (raw : List Char) :
    (∀ p, mkPhone raw = .ok p → p ∉ r.phones → r.remove_phone raw = (.ok (), r)) ∧
    (∀ e, mkPhone raw = .error e → r.remove_phone raw = (.error e, r)) := by
  constructor
  · intro p hp hm
    unfold Record.remove_phone
    rw [find_phone_none r hp hm]
  · intro e he
    unfold Record.remove_phone
    rw [find_phone_failed r he]

/-- Witness for C7: an absent well-formed number and a malformed number
on a concrete one-phone record. -/
theorem C7_remove_phone_frame_witness :
    Record.remove_phone ⟨"Alice", ["+380501234567".toList]⟩ "0509999999".toList
      = (.ok (), ⟨"Alice", ["+380501234567".toList]⟩) ∧
    Record.remove_phone ⟨"Alice", ["+380501234567".toList]⟩ "123".toList
      = (.error (.phoneFormat "Invalid phone number."),
         ⟨"Alice", ["+380501234567".toList]⟩) :=
  ⟨(C7_remove_phone_frame ⟨"Alice", ["+380501234567".toList]⟩
      "0509999999".toList).1 "+380509999999".toList (by decide) (by decide),
   (C7_remove_phone_frame ⟨"Alice", ["+380501234567".toList]⟩
      "123".toList).2 (.phoneFormat "Invalid phone number.") (by decide)⟩

/-- Claim C1 is false at a concrete input: the duplicate check of
`edit_phone` runs `find_phone(new_phone)` over the whole phone list with
no exclusion of the entry being replaced, so editing a phone to itself
raises `ContactError("New phone number already exists.")` instead of
succeeding. -/
theorem C1_counterexample :
    Record.edit_phone ⟨"Alice", ["+380501234567".toList]⟩
        "0501234567".toList "0501234567".toList
      = (.error (.contact "New phone number already exists."),
         ⟨"Alice", ["+380501234567".toList]⟩) := by decide

/-- Claim C1 as amended: when old normalizes to a stored phone,
`edit_phone` fails with the duplicate `ContactError` whenever the
normalized new number equals any stored phone — including the one being
replaced, so editing a phone to itself fails — and otherwise replaces the
first stored phone equal to the normalized old number in place, at its
original position. -/
theorem C1_edit_phone_amended (r : Record) (old new oldP newP : List Char)
    (hold : mkPhone old = .ok oldP) (hmem : oldP ∈ r.phones)
    (hnew : mkPhone new = .ok newP) :
    (newP ∈ r.phones →
      r.edit_phone old new
        = (.error (.contact "New phone number already exists."), r)) ∧
    (newP ∉ r.phones →
      r.edit_phone old new
        = (.ok (), { r with
            phones := r.phones.set (r.phones.indexOf oldP) newP })) := by
  constructor
  · intro hm2
    unfold Record.edit_phone
    rw [find_phone_some r hold hmem, find_phone_some r hnew hm2]
  · intro hm2
    unfold Record.edit_phone
    rw [find_phone_some r hold hmem, find_phone_none r hnew hm2, hnew]

/-- Witness for the amended C1: duplicate and successful edits on a
concrete two-phone record. -/
theorem C1_edit_phone_amended_witness :
    Record.edit_phone ⟨"Alice", ["+380501234567".toList, "+380509999999".toList]⟩
        "0501234567".toList "0509999999".toList
      = (.error (.contact "New phone number already exists."),
         ⟨"Alice", ["+380501234567".toList, "+380509999999".toList]⟩) ∧
    Record.edit_phone ⟨"Alice", ["+380501234567".toList, "+380509999999".toList]⟩
        "0501234567".toList "0507777777".toList
      = (.ok (), ⟨"Alice", ["+380507777777".toList, "+380509999999".toList]⟩) :=
  ⟨(C1_edit_phone_amended
      ⟨"Alice", ["+380501234567".toList, "+380509999999".toList]⟩
      "0501234567".toList "0509999999".toList
      "+380501234567".toList "+380509999999".toList
      (by decide) (by decide) (by decide)).1 (by decide),
   (C1_edit_phone_amended
      ⟨"Alice", ["+380501234567".toList, "+380509999999".toList]⟩
      "0501234567".toList "0507777777".toList
      "+380501234567".toList "+380507777777".toList
      (by decide) (by decide) (by decide)).2 (by decide)⟩

/-- Claim C8: for every book, adding a record whose name equals the key
of any already-stored entry fails with `ContactError("Contact already
exists.")` and leaves the book unchanged, and after `delete name` a
`find name` with `raise_error = False` returns `None` without raising. -/
theorem C8_address_book (b : AddressBook) (r2 : Record) (name : String) :
    ((∃ kv, kv ∈ b ∧ kv.1 = r2.name) →
      b.add_record r2 = (.error (.contact "Contact already exists."), b)) ∧
    (b.delete name).find name false = (.ok none, b.delete name) := by
  constructor
  · rintro ⟨kv, hkv, hname⟩
    have hsome : (b.find? (fun kv => kv.1 == r2.name)).isSome := by
      apply List.find?_isSome.mpr
      exact ⟨kv, hkv, by simp [hname]⟩
    unfold AddressBook.add_record
    rw [if_pos hsome]
  · have hnone : (AddressBook.delete b name).find? (fun kv => kv.1 == name)
        = none := by
      apply List.find?_eq_none.mpr
      intro kv hkv hbeq
      have h2 := (List.mem_filter.mp hkv).2
      simp only [bne_iff_ne, ne_eq] at h2
      exact h2 (by simpa using hbeq)
    unfold AddressBook.find
    rw [hnone]
    rfl

/-- Witness for C8 on a concrete two-record book whose clashing entry is
the first, not the most recently inserted, one. -/
theorem C8_address_book_witness :
    AddressBook.add_record
        [("Alice", Record.mk "Alice" []), ("Bob", Record.mk "Bob" [])]
        (Record.mk "Alice" ["+380501234567".toList])
      = (.error (.contact "Contact already exists."),
         [("Alice", Record.mk "Alice" []), ("Bob", Record.mk "Bob" [])]) ∧
    AddressBook.find
        (AddressBook.delete [("Alice", Record.mk "Alice" [])] "Alice") "Alice" false
      = (.ok none, AddressBook.delete [("Alice", Record.mk "Alice" [])] "Alice") :=
  ⟨(C8_address_book [("Alice", Record.mk "Alice" []), ("Bob", Record.mk "Bob" [])]
      (Record.mk "Alice" ["+380501234567".toList]) "Alice").1
      ⟨("Alice", Record.mk "Alice" []), List.mem_cons_self _ _, rfl⟩,
   (C8_address_book [("Alice", Record.mk "Alice" [])] (Record.mk "Alice" [])
      "Alice").2⟩

theorem add_phone_appended {r r' : Record} {raw : List Char}
    (h : r.add_phone raw = (.ok (), r')) :
    r' = { r with phones := r.phones ++ [normalizeRaw raw] } := by
  unfold Record.add_phone at h
  cases hmk : mkPhone raw with
  | error e =>
    rw [find_phone_failed r hmk] at h
    simp at h
  | ok t =>
    by_cases hm : t ∈ r.phones
    · rw [find_phone_some r hmk hm] at h
      simp at h
    · rw [find_phone_none r hmk hm, hmk] at h
      obtain ⟨rfl, -⟩ := mkPhone_ok_eq hmk
      injection h with h1 h2
      exact h2.symm

theorem addAll_phones (raws : List (List Char)) :
    ∀ r r' : Record, addAll r raws = some r' →
      r'.name = r.name ∧ r'.phones = r.phones ++ raws.map normalizeRaw := by
  induction raws with
  | nil =>
    intro r r' h
    unfold addAll at h
    injection h with h'
    subst h'
    simp
  | cons raw rest ih =>
    intro r r' h
    unfold addAll at h
    rcases hadd : r.add_phone raw with ⟨res, r1⟩
    rw [hadd] at h
    cases res with
    | error e => simp at h
    | ok u =>
      cases u
      have h' : addAll r1 rest = some r' := h
      have hr1 : r1 = { r with phones := r.phones ++ [normalizeRaw raw] } :=
        add_phone_appended hadd
      obtain ⟨hn, hp⟩ := ih r1 r' h'
      subst hr1
      refine ⟨by simpa using hn, ?_⟩
      simp only [List.map_cons] at hp ⊢
      rw [hp]
      simp

/-- Claim C9: a record created with name `n` whose phones were added by a
sequence of successful `add_phone` calls renders as `"Contact name: "`,
the name, `", phones: "`, and the normalized values of the added raw
strings joined by `"; "` in insertion order. -/
theorem C9_render (n : String) (raws : List (List Char)) (r : Record)
    (h : addAll ⟨n, []⟩ raws = some r) :
    r.render = "Contact name: ".toList ++ n.toList ++ ", phones: ".toList
      ++ List.intercalate "; ".toList (raws.map normalizeRaw) := by
  obtain ⟨hn, hp⟩ := addAll_phones raws ⟨n, []⟩ r h
  unfold Record.render
  rw [hn, hp]
  simp

/-- Witness for C9: the spec's end-to-end example, two numbers added to
`Alice` and rendered in insertion order. -/
theorem C9_render_witness :
    addAll ⟨"Alice", []⟩ ["0501234567".toList, "0509999999".toList]
      = some ⟨"Alice", ["+380501234567".toList, "+380509999999".toList]⟩ ∧
    Record.render ⟨"Alice", ["+380501234567".toList, "+380509999999".toList]⟩
      = "Contact name: Alice, phones: +380501234567; +380509999999".toList := by
  refine ⟨by decide, ?_⟩
  have h := C9_render "Alice" ["0501234567".toList, "0509999999".toList]
    ⟨"Alice", ["+380501234567".toList, "+380509999999".toList]⟩ (by decide)
  rw [h]
  decide

/-- Claim C10: the lookup operations are read-only — `AddressBook.find`
returns the book unchanged and `Record.find_phone` returns the record
unchanged, in every outcome. -/
theorem C10_lookups_readonly (b : AddressBook) (name : String) (flag : Bool)
    (r : Record) (raw : List Char) :
    (b.find name flag).2 = b ∧ (r.find_phone raw).2 = r :=
  ⟨rfl, rfl⟩

end Models
